import Mathlib

/-!
Shallow embedding of the recommendation engine in
`src/grec5/recommendation_engine.py` (class `RecommendationEngine`),
together with theorems settling the frozen claims about it.

Modelling conventions:
* Python dicts with string keys and numeric values (`user_needs`,
  `product_specs`) become insertion-ordered association lists
  `List (String × ℚ)`; `k in d` / `d[k]` / `d.get(k, v)` become
  `List.lookup` (first match), and iteration over `d.items()` iterates the
  list in order, exactly as Python dict iteration does.
* Python floats become rationals `ℚ`.  Every division in the source is
  guarded (`user_value > 0`, `len(scores)` nonempty, `product_price > 0`),
  so total division on `ℚ` is faithful.  `round(x, 2)` becomes nearest
  rounding of `100 * x`; no claim depends on tie behaviour of rounding.
* `self.config` is read, and never written, by every method embedded here,
  so each method takes the `Config` value as an explicit first argument.
-/

namespace GRec5

/-- A `user_needs` / `product_specs` dict: insertion-ordered association
list from attribute name to quantity. -/
abbrev AttrMap := List (String × ℚ)

/-- A product record as the engine reads it: the engine accesses
`product.get("specs", {})` and `product.get("price", ...)`; the remaining
keys (name, features, type, carrier) are carried opaquely by `name` and are
never read by the embedded code paths. -/
structure Product where
  name : String
  specs : AttrMap
  price : Option ℚ
  deriving Repr, DecidableEq

/-- The engine configuration (`self.config`): flattened fields of
`score_weights`, `thresholds` and `max_recommendations`.  The Python key
of `perfect_match_limit` is spelled `perfect_match_` + `ratio`. -/
structure Config where
  usage_match : ℚ
  price_advantage : ℚ
  budget_tolerance : ℚ
  waste_penalty : ℚ
  perfect_match_limit : ℚ
  max_recommendations : ℕ
  deriving Repr, DecidableEq

/-- Embeds `_get_default_config` (decimal literals as exact rationals). -/
def default_config : Config :=
  ⟨7/10, 3/10, 6/5, 1/10, 3/2, 10⟩

/-- Embeds `_calculate_satisfaction_scores`: for each needed attribute that is
present in the product specs, `min(product_value / user_value, 2.0)` when
the need is positive, `1.0` otherwise; attributes absent from the specs
are skipped by the `if need_key in product_specs` guard. -/
def calculate_satisfaction_scores (user_needs product_specs : AttrMap) : List ℚ :=
  user_needs.filterMap fun (kv : String × ℚ) =>
    match List.lookup kv.1 product_specs with
    | some product_value =>
        if kv.2 > 0 then some (min (product_value / kv.2) 2) else some 1
    | none => none

/-- Embeds `_calculate_waste_penalties`: for each needed attribute present in the
specs with positive need and a surplus, the ratio
`(product_value - user_value) / user_value`. -/
def calculate_waste_penalties (user_needs product_specs : AttrMap) : List ℚ :=
  user_needs.filterMap fun (kv : String × ℚ) =>
    match List.lookup kv.1 product_specs with
    | some product_value =>
        if kv.2 > 0 ∧ product_value > kv.2 then some ((product_value - kv.2) / kv.2)
        else none
    | none => none

/-- Embeds `_compute_final_usage_score`: averages (0 on an empty list), waste
penalty weighting, clamped at 0 from below. -/
def compute_final_usage_score (cfg : Config) (scores penalties : List ℚ) : ℚ :=
  let avg_score := if scores = [] then 0 else scores.sum / scores.length
  let avg_penalty := if penalties = [] then 0 else penalties.sum / penalties.length
  max (avg_score - avg_penalty * cfg.waste_penalty) 0

/-- Embeds `calculate_usage_score`. -/
def calculate_usage_score (cfg : Config) (user_needs product_specs : AttrMap) : ℚ :=
  compute_final_usage_score cfg
    (calculate_satisfaction_scores user_needs product_specs)
    (calculate_waste_penalties user_needs product_specs)

/-- Embeds `calculate_price_score`: `0` when `product_price <= 0`, else
`user_budget / product_price`. -/
def calculate_price_score (user_budget product_price : ℚ) : ℚ :=
  if product_price ≤ 0 then 0 else user_budget / product_price

/-- Embeds `check_basic_requirements`: reject when the price exceeds
`user_budget * budget_tolerance`; otherwise reject iff some needed
attribute is present in the specs with a value below the need (attributes
absent from the specs are skipped by the `if need_key in product_specs`
guard). -/
def check_basic_requirements (cfg : Config) (user_needs product_specs : AttrMap)
    (user_budget product_price : ℚ) : Bool :=
  if product_price > user_budget * cfg.budget_tolerance then false
  else user_needs.all fun kv =>
    match List.lookup kv.1 product_specs with
    | some product_value => decide (¬ product_value < kv.2)
    | none => true

/-- The price fallback `product_specs.get("price", product.get("price", 0))`
shared verbatim by `_evaluate_single_product`, `generate_match_reason`,
`_analyze_product_mismatch` and `_generate_improvement_suggestions`. -/
def resolve_price (product : Product) : ℚ :=
  match List.lookup "price" product.specs with
  | some v => v
  | none => product.price.getD 0

/-- Embeds `_calculate_weighted_score`. -/
def calculate_weighted_score (cfg : Config) (usage_score price_score : ℚ) : ℚ :=
  usage_score * cfg.usage_match + price_score * cfg.price_advantage

/-- Embeds `round(x, 2)`: nearest rounding of `100 * x`, scaled back. -/
def round2 (x : ℚ) : ℚ := (round (x * 100) : ℤ) / 100

/-- One clause of the `match_reason` text.  The Python code renders each
clause as a formatted string; the embedding keeps the data the format
string interpolates and drops the surrounding display text. -/
inductive ReasonClause where
  | fully_satisfies (key : String) (spec_value need_value : ℚ)
  | surplus (key : String) (spec_value need_value excess : ℚ)
  | saves (price savings : ℚ)
  | within_budget (price : ℚ)
  | over_budget_good_value (price excess : ℚ)
  deriving Repr, DecidableEq

/-- Embeds `_analyze_need_match_reasons`: one clause per needed attribute present
in the specs with `product_value >= user_value`. -/
def analyze_need_match_reasons (cfg : Config) (user_needs product_specs : AttrMap) :
    List ReasonClause :=
  user_needs.filterMap fun (kv : String × ℚ) =>
    match List.lookup kv.1 product_specs with
    | some product_value =>
        if product_value ≥ kv.2 then
          if product_value ≤ kv.2 * cfg.perfect_match_limit then
            some (ReasonClause.fully_satisfies kv.1 product_value kv.2)
          else
            some (ReasonClause.surplus kv.1 product_value kv.2 (product_value - kv.2))
        else none
    | none => none

/-- Embeds `_analyze_price_reasons`. -/
def analyze_price_reasons (cfg : Config) (user_budget product_price : ℚ) :
    List ReasonClause :=
  if product_price ≤ user_budget then
    if user_budget - product_price ≥ 20 then
      [ReasonClause.saves product_price (user_budget - product_price)]
    else
      [ReasonClause.within_budget product_price]
  else if product_price ≤ user_budget * cfg.budget_tolerance then
    [ReasonClause.over_budget_good_value product_price (product_price - user_budget)]
  else []

/-- Embeds `generate_match_reason`: attribute clauses in `user_needs` iteration
order, then the price clause; the price is resolved via `resolve_price`. -/
def generate_match_reason (cfg : Config) (user_needs : AttrMap) (user_budget : ℚ)
    (product : Product) : List ReasonClause :=
  analyze_need_match_reasons cfg user_needs product.specs ++
    analyze_price_reasons cfg user_budget (resolve_price product)

/-- One entry of the list `recommend` returns.  `idx` records the
position of the product in the input catalog; it is what makes the stable
tie-break of the Python sort expressible. -/
structure Recommendation where
  idx : ℕ
  product : Product
  score : ℚ
  usage_score : ℚ
  price_score : ℚ
  match_reason : List ReasonClause
  deriving Repr, DecidableEq

/-- Embeds `_evaluate_single_product` for the product at catalog position `idx`. -/
def evaluate_single_product (cfg : Config) (user_needs : AttrMap) (user_budget : ℚ)
    (idx : ℕ) (product : Product) : Option Recommendation :=
  let product_specs := product.specs
  let product_price := resolve_price product
  if check_basic_requirements cfg user_needs product_specs user_budget product_price then
    let usage_score := calculate_usage_score cfg user_needs product_specs
    let price_score := calculate_price_score user_budget product_price
    let final_score := calculate_weighted_score cfg usage_score price_score
    some ⟨idx, product, round2 final_score, round2 usage_score, round2 price_score,
      generate_match_reason cfg user_needs user_budget product⟩
  else none

/-- The order underlying `recommendations.sort(key=..., reverse=True)`:
a stable descending sort by `score` over records carrying their (distinct)
catalog positions coincides with sorting by score descending, catalog
position ascending. -/
def recOrder (a b : Recommendation) : Prop :=
  b.score < a.score ∨ (a.score = b.score ∧ a.idx ≤ b.idx)

instance : DecidableRel recOrder := fun a b => by
  unfold recOrder; exact inferInstance

instance : IsTotal Recommendation recOrder where
  total a b := by
    unfold recOrder
    rcases lt_trichotomy a.score b.score with h | h | h
    · exact Or.inr (Or.inl h)
    · rcases le_total a.idx b.idx with h' | h'
      · exact Or.inl (Or.inr ⟨h, h'⟩)
      · exact Or.inr (Or.inr ⟨h.symm, h'⟩)
    · exact Or.inl (Or.inl h)

instance : IsTrans Recommendation recOrder where
  trans a b c hab hbc := by
    unfold recOrder at *
    rcases hab with h1 | ⟨e1, i1⟩
    · rcases hbc with h2 | ⟨e2, _⟩
      · exact Or.inl (h2.trans h1)
      · exact Or.inl (e2 ▸ h1)
    · rcases hbc with h2 | ⟨e2, i2⟩
      · exact Or.inl (h2.trans_eq e1.symm)
      · exact Or.inr ⟨e1.trans e2, i1.trans i2⟩

/-- Embeds `_sort_and_limit_recommendations`: stable descending sort by score
(insertion sort on `recOrder`), truncated to `max_recommendations`. -/
def sort_and_limit_recommendations (cfg : Config) (recommendations : List Recommendation) :
    List Recommendation :=
  (recommendations.insertionSort recOrder).take cfg.max_recommendations

/-- Embeds `recommend`: evaluate every catalog product in order, keep those that
pass `check_basic_requirements`, sort and truncate. -/
def recommend (cfg : Config) (user_needs : AttrMap) (user_budget : ℚ)
    (products : List Product) : List Recommendation :=
  sort_and_limit_recommendations cfg
    (products.enum.filterMap fun (ip : ℕ × Product) =>
      evaluate_single_product cfg user_needs user_budget ip.1 ip.2)

/-- The engine method `recommend` threaded through `self.config`: the
method body reads `self.config` and never assigns it, so the state after
the call is the state before it. -/
def recommendSt (cfg : Config) (user_needs : AttrMap) (user_budget : ℚ)
    (products : List Product) : List Recommendation × Config :=
  (recommend cfg user_needs user_budget products, cfg)

/-- One suggestion in `Diagnosis.suggestions`, keeping the value the
Python format string interpolates. -/
inductive Suggestion where
  | raise_budget (amount : ℚ)
  | lower_need (key : String) (amount : ℚ)
  deriving Repr, DecidableEq

/-- The dict built by `analyze_no_match_reason`. -/
structure Diagnosis where
  over_budget_products : List Product
  insufficient_specs : List (String × List Product)
  suggestions : List Suggestion
  deriving Repr, DecidableEq

/-- Embeds `_is_over_budget_but_specs_satisfy`: every needed attribute is met
(absent spec values default to 0 here) and the price exceeds the tolerated
budget. -/
def is_over_budget_but_specs_satisfy (cfg : Config) (product_specs user_needs : AttrMap)
    (product_price user_budget : ℚ) : Bool :=
  user_needs.all (fun (kv : String × ℚ) =>
      decide ((List.lookup kv.1 product_specs).getD 0 ≥ kv.2)) &&
    decide (product_price > user_budget * cfg.budget_tolerance)

/-- Python `analysis["insufficient_specs"][k].append(p)` with
`analysis["insufficient_specs"].setdefault`-style key creation: append to
the entry at `k`, creating it at the end (dict insertion order) when
missing. -/
def alist_append (m : List (String × List Product)) (k : String) (p : Product) :
    List (String × List Product) :=
  match m with
  | [] => [(k, [p])]
  | kl :: rest =>
      if kl.1 = k then (kl.1, kl.2 ++ [p]) :: rest
      else kl :: alist_append rest k p

/-- Embeds `_check_insufficient_specs` for one product: when the price is within
tolerance, record the product under every needed attribute whose spec
value (0 when absent) falls short. -/
def check_insufficient_specs (cfg : Config) (product_specs : AttrMap)
    (product_price : ℚ) (user_needs : AttrMap) (user_budget : ℚ)
    (m : List (String × List Product)) (product : Product) :
    List (String × List Product) :=
  if product_price ≤ user_budget * cfg.budget_tolerance then
    user_needs.foldl
      (fun m kv =>
        if (List.lookup kv.1 product_specs).getD 0 < kv.2 then alist_append m kv.1 product
        else m)
      m
  else m

/-- Embeds `_analyze_product_mismatch`: one pass over the catalog accumulating
the `over_budget_products` list and the `insufficient_specs` dict. -/
def analyze_product_mismatch (cfg : Config) (products : List Product)
    (user_needs : AttrMap) (user_budget : ℚ) :
    List Product × List (String × List Product) :=
  products.foldl
    (fun acc product =>
      let product_specs := product.specs
      let product_price := resolve_price product
      let ob :=
        if is_over_budget_but_specs_satisfy cfg product_specs user_needs
            product_price user_budget then
          acc.1 ++ [product]
        else acc.1
      let ins := check_insufficient_specs cfg product_specs product_price
        user_needs user_budget acc.2 product
      (ob, ins))
    ([], [])

/-- Python `min` over a nonempty list (`0` on `[]`, unreachable in the
source, which only takes `min`/`max` of nonempty collections). -/
def list_min (l : List ℚ) : ℚ :=
  match l with
  | [] => 0
  | x :: xs => xs.foldl min x

/-- Python `max` over a nonempty list (`0` on `[]`, unreachable). -/
def list_max (l : List ℚ) : ℚ :=
  match l with
  | [] => 0
  | x :: xs => xs.foldl max x

/-- Embeds `_generate_improvement_suggestions`: a raise-budget suggestion to the
minimum resolved price over `over_budget_products` when that list is
nonempty, then one lower-need suggestion per `insufficient_specs` entry to
the maximum spec value (0 when absent) over its recorded products. -/
def generate_improvement_suggestions (over_budget : List Product)
    (insufficient : List (String × List Product)) : List Suggestion :=
  (match over_budget with
   | [] => []
   | p :: rest => [Suggestion.raise_budget (list_min ((p :: rest).map resolve_price))]) ++
  insufficient.map fun kl =>
    Suggestion.lower_need kl.1
      (list_max (kl.2.map fun prod => (List.lookup kl.1 prod.specs).getD 0))

/-- Embeds `analyze_no_match_reason`. -/
def analyze_no_match_reason (cfg : Config) (user_needs : AttrMap) (user_budget : ℚ)
    (products : List Product) : Diagnosis :=
  let mm := analyze_product_mismatch cfg products user_needs user_budget
  ⟨mm.1, mm.2, generate_improvement_suggestions mm.1 mm.2⟩

/-- Modelled from the spec, in its words, for the refinement comparison of the
satisfaction computation (nothing is missing from `src/`; this definition
follows the reading of the claim, under which an attribute requested but absent
from the spec is treated as `spec_value` 0 and contributes a satisfaction
of 0, so the average runs over all requested attributes). -/
def satisfaction_scores_claimed (user_needs product_specs : AttrMap) : List ℚ :=
  user_needs.map fun (kv : String × ℚ) =>
    if kv.2 > 0 then min ((List.lookup kv.1 product_specs).getD 0 / kv.2) 2 else 1

/- Concrete data used by witnesses and counterexamples. -/

/-- A catalog product matching the worked scenario of the spec. -/
def dA : Product := ⟨"A", [("data", 30), ("calls", 500), ("price", 100)], none⟩

/-- The need set of the worked scenario. -/
def needsA : AttrMap := [("data", 30), ("calls", 500)]

/-- The recommendation `recommend` produces for `dA` under `needsA`,
budget 150 and the default configuration. -/
def recA : Recommendation :=
  ⟨0, dA, 23/20, 1, 3/2,
    [ReasonClause.fully_satisfies "data" 30 30,
     ReasonClause.fully_satisfies "calls" 500 500,
     ReasonClause.saves 100 50]⟩

/-- A product whose specs satisfy `("data", 30)` but whose price 200
exceeds the tolerated budget `50 * 1.2`. -/
def pOver : Product := ⟨"O", [("data", 30), ("price", 200)], none⟩

/-- A product within budget tolerance but short on `"data"`. -/
def pLow : Product := ⟨"L", [("data", 10), ("price", 40)], none⟩

/-- A product with a price inside its specs dict. -/
def pS : Product := ⟨"s", [("price", 42)], none⟩

/-- A product with only a top-level price entry. -/
def pT : Product := ⟨"t", [], some 7⟩

/-- A product with no price anywhere. -/
def pN : Product := ⟨"n", [], none⟩

/- Helper lemmas: concrete evaluations of the pipeline on the data above,
and structural facts shared by several claim theorems. -/

theorem dA_satisfaction : calculate_satisfaction_scores needsA dA.specs = [1, 1] := by
  simp [calculate_satisfaction_scores, List.filterMap_cons, List.lookup, dA, needsA]

theorem dA_waste : calculate_waste_penalties needsA dA.specs = [] := by
  simp [calculate_waste_penalties, List.filterMap_cons, List.lookup, dA, needsA]

theorem dA_price : resolve_price dA = 100 := by
  simp [resolve_price, List.lookup, dA]

theorem dA_check : check_basic_requirements default_config needsA dA.specs 150 100 = true := by
  simp [check_basic_requirements, List.lookup, dA, needsA, default_config]
  norm_num

theorem dA_usage : calculate_usage_score default_config needsA dA.specs = 1 := by
  rw [calculate_usage_score, dA_satisfaction, dA_waste]
  simp [compute_final_usage_score]

theorem dA_reason :
    generate_match_reason default_config needsA 150 dA =
      [ReasonClause.fully_satisfies "data" 30 30,
       ReasonClause.fully_satisfies "calls" 500 500,
       ReasonClause.saves 100 50] := by
  rw [generate_match_reason, dA_price]
  simp [analyze_need_match_reasons, analyze_price_reasons, List.filterMap_cons,
    List.lookup, dA, needsA, default_config]
  norm_num

theorem dA_eval : evaluate_single_product default_config needsA 150 0 dA = some recA := by
  rw [evaluate_single_product]
  simp only [dA_price, dA_check, dA_usage, dA_reason, if_true]
  norm_num [calculate_price_score, calculate_weighted_score, round2, round_eq,
    default_config, recA]

theorem recommend_A : recommend default_config needsA 150 [dA] = [recA] := by
  rw [recommend, sort_and_limit_recommendations]
  simp only [List.enum, List.enumFrom, List.filterMap_cons, List.filterMap_nil, dA_eval,
    List.insertionSort, List.orderedInsert]
  rw [List.take_of_length_le]
  simp [default_config]

theorem recA_mem : recA ∈ recommend default_config needsA 150 [dA] := by
  rw [recommend_A]
  exact List.mem_singleton.2 rfl

-- A `check_basic_requirements` result of `true` means the price test at
-- the top of the method did not fire.
theorem check_true_not_over {cfg : Config} {user_needs product_specs : AttrMap}
    {user_budget product_price : ℚ}
    (h : check_basic_requirements cfg user_needs product_specs user_budget
      product_price = true) :
    ¬ product_price > user_budget * cfg.budget_tolerance := by
  intro hgt
  rw [check_basic_requirements, if_pos hgt] at h
  exact Bool.false_ne_true h

-- Every member of the output of `recommend` is the evaluation of the
-- catalog product at its recorded index, and passed the eligibility check.
theorem recommend_mem_spec {cfg : Config} {user_needs : AttrMap} {user_budget : ℚ}
    {products : List Product} {r : Recommendation}
    (h : r ∈ recommend cfg user_needs user_budget products) :
    products[r.idx]? = some r.product ∧
      check_basic_requirements cfg user_needs r.product.specs user_budget
        (resolve_price r.product) = true := by
  rw [recommend, sort_and_limit_recommendations] at h
  have h1 := List.mem_of_mem_take h
  rw [List.mem_insertionSort, List.mem_filterMap] at h1
  obtain ⟨ip, hip, heval⟩ := h1
  simp only [evaluate_single_product] at heval
  split at heval
  · rename_i hc
    injection heval with h2
    subst h2
    exact ⟨List.mem_enum_iff_getElem?.1 hip, hc⟩
  · exact absurd heval (by simp)

-- Membership of the raise-budget suggestion.
theorem raise_mem_suggestions {ob : List Product} (ins : List (String × List Product))
    (h : ob ≠ []) :
    Suggestion.raise_budget (list_min (ob.map resolve_price)) ∈
      generate_improvement_suggestions ob ins := by
  cases ob with
  | nil => exact absurd rfl h
  | cons p rest =>
      simp only [generate_improvement_suggestions]
      exact List.mem_append_left _ (List.mem_singleton.2 rfl)

-- Membership of each lower-need suggestion.
theorem lower_mem_suggestions (ob : List Product) {ins : List (String × List Product)}
    {kl : String × List Product} (h : kl ∈ ins) :
    Suggestion.lower_need kl.1
        (list_max (kl.2.map fun prod => (List.lookup kl.1 prod.specs).getD 0)) ∈
      generate_improvement_suggestions ob ins := by
  rw [generate_improvement_suggestions.eq_def]
  exact List.mem_append_right _
    (List.mem_map_of_mem
      (fun kl => Suggestion.lower_need kl.1
        (list_max (kl.2.map fun prod => (List.lookup kl.1 prod.specs).getD 0))) h)

theorem pOver_price : resolve_price pOver = 200 := by decide

theorem pLow_price : resolve_price pLow = 40 := by decide

-- Full evaluation of the diagnostic on the two-product catalog.
theorem analyze_OL :
    analyze_no_match_reason default_config [("data", 30)] 50 [pOver, pLow] =
      ⟨[pOver], [("data", [pLow])],
        [Suggestion.raise_budget 200, Suggestion.lower_need "data" 10]⟩ := by
  rw [analyze_no_match_reason]
  simp only [analyze_product_mismatch, List.foldl_cons, List.foldl_nil,
    pOver_price, pLow_price]
  simp [is_over_budget_but_specs_satisfy, check_insufficient_specs, alist_append,
    List.lookup, pOver, pLow, default_config]
  norm_num [check_insufficient_specs, alist_append, List.foldl_cons, List.foldl_nil,
    generate_improvement_suggestions, list_min, list_max, pOver_price, pLow_price,
    List.lookup, pOver, pLow]
  decide

-- An attribute requested but absent from the specs contributes no entry
-- to the satisfaction list.
theorem satisfaction_skip {k : String} {specs : AttrMap} (v : ℚ)
    (h : List.lookup k specs = none) (n₁ n₂ : AttrMap) :
    calculate_satisfaction_scores (n₁ ++ (k, v) :: n₂) specs =
      calculate_satisfaction_scores (n₁ ++ n₂) specs := by
  simp [calculate_satisfaction_scores, List.filterMap_append, List.filterMap_cons, h]

-- Nor to the waste-penalty list.
theorem waste_skip {k : String} {specs : AttrMap} (v : ℚ)
    (h : List.lookup k specs = none) (n₁ n₂ : AttrMap) :
    calculate_waste_penalties (n₁ ++ (k, v) :: n₂) specs =
      calculate_waste_penalties (n₁ ++ n₂) specs := by
  simp [calculate_waste_penalties, List.filterMap_append, List.filterMap_cons, h]

/- Claim theorems. -/

/-- C1 counterexample: with need `("data", 10)` (positive) absent from the
spec `[("price", 5)]`, budget 100 and price 5, `check_basic_requirements`
returns `true`, not `false` as the claim states: the absent attribute is
skipped, not treated as 0. -/
theorem claim_C1_counterexample :
    List.lookup "data" ([("price", 5)] : AttrMap) = none ∧ (0:ℚ) < 10 ∧
    check_basic_requirements default_config [("data", 10)] [("price", 5)] 100 5
      = true := by
  refine ⟨by decide, by norm_num, ?_⟩
  simp [check_basic_requirements, List.lookup, default_config]
  norm_num

/-- C1 (amended): `check_basic_requirements` skips attributes absent from
the product spec; it returns `false` iff the price exceeds
`budget * budget_tolerance` or some needed attribute is present in the
spec with a value strictly below the needed value. -/
theorem claim_C1_amended (cfg : Config) (user_needs product_specs : AttrMap)
    (user_budget product_price : ℚ) :
    check_basic_requirements cfg user_needs product_specs user_budget product_price
        = false ↔
      (product_price > user_budget * cfg.budget_tolerance ∨
        ∃ kv ∈ user_needs, ∃ product_value,
          List.lookup kv.1 product_specs = some product_value ∧
            product_value < kv.2) := by
  rw [check_basic_requirements]
  split
  · rename_i hgt
    simp [hgt]
  · rename_i hng
    rw [List.all_eq_false]
    simp only [hng, false_or]
    constructor
    · rintro ⟨kv, hm, hf⟩
      refine ⟨kv, hm, ?_⟩
      rcases hl : List.lookup kv.1 product_specs with _ | pv
      · rw [hl] at hf
        simp at hf
      · rw [hl] at hf
        exact ⟨pv, rfl, by simpa using hf⟩
    · rintro ⟨kv, hm, pv, hl, hlt⟩
      refine ⟨kv, hm, ?_⟩
      rw [hl]
      simpa using hlt

/-- C2 counterexample: with needs `[("data", 10), ("calls", 10)]` and spec
`[("data", 20)]`, the attribute `"calls"` is requested and absent from the
spec, yet the satisfaction list is `[2]` — one entry, no contributed 0 —
and the usage score is `19/10`, not the `9/10` that averaging a 0 over all
requested attributes (the reading of the claim, `satisfaction_scores_claimed`)
would give. -/
theorem claim_C2_counterexample :
    List.lookup "calls" ([("data", 20)] : AttrMap) = none ∧
    calculate_satisfaction_scores [("data", 10), ("calls", 10)] [("data", 20)]
      = [2] ∧
    satisfaction_scores_claimed [("data", 10), ("calls", 10)] [("data", 20)]
      = [2, 0] ∧
    calculate_usage_score default_config [("data", 10), ("calls", 10)]
      [("data", 20)] = 19/10 ∧
    compute_final_usage_score default_config
      (satisfaction_scores_claimed [("data", 10), ("calls", 10)] [("data", 20)])
      (calculate_waste_penalties [("data", 10), ("calls", 10)] [("data", 20)])
      = 9/10 := by
  have hsat : calculate_satisfaction_scores [("data", 10), ("calls", 10)]
      [("data", 20)] = [2] := by
    simp [calculate_satisfaction_scores, List.filterMap_cons, List.lookup]
    norm_num [min_def]
  have hwaste : calculate_waste_penalties [("data", 10), ("calls", 10)]
      [("data", 20)] = [1] := by
    simp [calculate_waste_penalties, List.filterMap_cons, List.lookup]
    norm_num
  have hclaimed : satisfaction_scores_claimed [("data", 10), ("calls", 10)]
      [("data", 20)] = [2, 0] := by
    simp [satisfaction_scores_claimed, List.lookup]
    norm_num [min_def]
  refine ⟨by decide, hsat, hclaimed, ?_, ?_⟩
  · rw [calculate_usage_score, hsat, hwaste]
    simp [compute_final_usage_score, default_config, max_def]
    norm_num
  · rw [hclaimed, hwaste]
    simp [compute_final_usage_score, default_config, max_def]
    norm_num

/-- C2 (amended): an attribute requested but absent from the spec is
skipped entirely by `_calculate_satisfaction_scores` — it contributes no
entry at all, and removing it from the needs leaves both the satisfaction
list and the usage score unchanged; the average runs only over attributes
present in both needs and spec. -/
theorem claim_C2_amended (cfg : Config) (n₁ n₂ : AttrMap) (k : String) (v : ℚ)
    (product_specs : AttrMap) (h : List.lookup k product_specs = none) :
    calculate_satisfaction_scores (n₁ ++ (k, v) :: n₂) product_specs =
      calculate_satisfaction_scores (n₁ ++ n₂) product_specs ∧
    calculate_usage_score cfg (n₁ ++ (k, v) :: n₂) product_specs =
      calculate_usage_score cfg (n₁ ++ n₂) product_specs :=
  ⟨satisfaction_skip v h n₁ n₂, by
    rw [calculate_usage_score, calculate_usage_score, satisfaction_skip v h n₁ n₂,
      waste_skip v h n₁ n₂]⟩

/-- Witness for C2 (amended): dropping the absent `("b", 10)` need leaves
the scores unchanged. -/
theorem claim_C2_amended_witness :
    calculate_satisfaction_scores [("a", 10), ("b", 10)] [("a", 20)] =
      calculate_satisfaction_scores [("a", 10)] [("a", 20)] ∧
    calculate_usage_score default_config [("a", 10), ("b", 10)] [("a", 20)] =
      calculate_usage_score default_config [("a", 10)] [("a", 20)] :=
  claim_C2_amended default_config [("a", 10)] [] "b" 10 [("a", 20)] (by decide)

/-- C5: `calculate_price_score` equals `budget / price` for positive
prices and 0 for zero or negative prices; the division is guarded, so the
function is total. -/
theorem claim_C5 (user_budget product_price : ℚ) :
    (0 < product_price →
      calculate_price_score user_budget product_price
        = user_budget / product_price) ∧
    (product_price ≤ 0 → calculate_price_score user_budget product_price = 0) := by
  constructor
  · intro h
    rw [calculate_price_score, if_neg (not_le.2 h)]
  · intro h
    rw [calculate_price_score, if_pos h]

/-- Witness for C5 at prices 100 and -3. -/
theorem claim_C5_witness :
    calculate_price_score 150 100 = 150 / 100 ∧ calculate_price_score 150 (-3) = 0 :=
  ⟨(claim_C5 150 100).1 (by norm_num), (claim_C5 150 (-3)).2 (by norm_num)⟩

/-- C6 counterexample: for the negative budget -10 and price 5 the price
score is `-10 / 5 = -2 < 0`, refuting `price_score >= 0` "always". -/
theorem claim_C6_counterexample :
    calculate_price_score (-10) 5 = -2 ∧ ¬ 0 ≤ calculate_price_score (-10) 5 := by
  have h : calculate_price_score (-10) 5 = -2 := by
    rw [calculate_price_score, if_neg (by norm_num)]
    norm_num
  rw [h]
  norm_num

/-- C6 (amended): the usage score is nonnegative for every input, and the
price score is nonnegative whenever the budget is nonnegative (for a
negative budget and a positive price it is negative). -/
theorem claim_C6_amended (cfg : Config) (user_needs product_specs : AttrMap)
    (user_budget product_price : ℚ) :
    0 ≤ calculate_usage_score cfg user_needs product_specs ∧
    (0 ≤ user_budget → 0 ≤ calculate_price_score user_budget product_price) := by
  constructor
  · rw [calculate_usage_score]
    simp only [compute_final_usage_score]
    exact le_max_right _ _
  · intro hb
    rw [calculate_price_score]
    split
    · exact le_refl 0
    · rename_i hp
      exact div_nonneg hb (le_of_lt (not_le.1 hp))

/-- Witness for C6 (amended) at the worked scenario and budget 150. -/
theorem claim_C6_amended_witness :
    0 ≤ calculate_usage_score default_config needsA dA.specs ∧
    0 ≤ calculate_price_score 150 100 :=
  ⟨(claim_C6_amended default_config needsA dA.specs 150 100).1,
   (claim_C6_amended default_config needsA dA.specs 150 100).2 (by norm_num)⟩

/-- C7: `recommend` is a pure function of its arguments and the config;
the method reads `self.config` and never writes it, so threading the
config state through a call (`recommendSt`) returns it unchanged, and a
second call with the resulting state yields the identical output. -/
theorem claim_C7 (cfg : Config) (user_needs : AttrMap) (user_budget : ℚ)
    (products : List Product) :
    recommendSt (recommendSt cfg user_needs user_budget products).2 user_needs
        user_budget products = recommendSt cfg user_needs user_budget products ∧
    (recommendSt cfg user_needs user_budget products).2 = cfg :=
  ⟨rfl, rfl⟩

/-- C3: every entry of the output of `recommend` is the catalog product at its
recorded index and passed `check_basic_requirements`; the output is
pairwise descending by `score`, ties broken by ascending catalog index
(the stable sort); and its length is at most `max_recommendations`. -/
theorem claim_C3 (cfg : Config) (user_needs : AttrMap) (user_budget : ℚ)
    (products : List Product) :
    (∀ r ∈ recommend cfg user_needs user_budget products,
      products[r.idx]? = some r.product ∧
        check_basic_requirements cfg user_needs r.product.specs user_budget
          (resolve_price r.product) = true) ∧
    List.Pairwise
      (fun a b => b.score ≤ a.score ∧ (a.score = b.score → a.idx ≤ b.idx))
      (recommend cfg user_needs user_budget products) ∧
    (recommend cfg user_needs user_budget products).length
      ≤ cfg.max_recommendations := by
  refine ⟨fun r hr => recommend_mem_spec hr, ?_, ?_⟩
  · have hs := List.sorted_insertionSort recOrder
      (products.enum.filterMap fun ip =>
        evaluate_single_product cfg user_needs user_budget ip.1 ip.2)
    have hp : List.Pairwise recOrder
        (recommend cfg user_needs user_budget products) := by
      rw [recommend, sort_and_limit_recommendations]
      exact List.Pairwise.sublist (List.take_sublist _ _) hs
    refine hp.imp ?_
    intro a b hab
    rcases hab with h | ⟨he, hi⟩
    · refine ⟨le_of_lt h, fun he => absurd h ?_⟩
      rw [he]
      exact lt_irrefl _
    · exact ⟨le_of_eq he.symm, fun _ => hi⟩
  · rw [recommend, sort_and_limit_recommendations, List.length_take]
    exact min_le_left _ _

/-- Witness for C3 at the worked scenario. -/
theorem claim_C3_witness :
    (([dA] : List Product)[recA.idx]? = some recA.product ∧
      check_basic_requirements default_config needsA recA.product.specs 150
        (resolve_price recA.product) = true) ∧
    (recommend default_config needsA 150 [dA]).length
      ≤ default_config.max_recommendations :=
  ⟨(claim_C3 default_config needsA 150 [dA]).1 recA recA_mem,
   (claim_C3 default_config needsA 150 [dA]).2.2⟩

/-- C4: every entry of the output of `recommend` has a resolved product price
within `budget * budget_tolerance`; hence a product whose price exceeds it
never appears in the output, regardless of its scores. -/
theorem claim_C4 (cfg : Config) (user_needs : AttrMap) (user_budget : ℚ)
    (products : List Product) (r : Recommendation)
    (h : r ∈ recommend cfg user_needs user_budget products) :
    ¬ resolve_price r.product > user_budget * cfg.budget_tolerance :=
  check_true_not_over (recommend_mem_spec h).2

/-- Witness for C4: the sole recommendation of the worked scenario. -/
theorem claim_C4_witness :
    ¬ resolve_price recA.product > 150 * default_config.budget_tolerance :=
  claim_C4 default_config needsA 150 [dA] recA recA_mem

/-- C8: in the Diagnosis from `analyze_no_match_reason`, a nonempty
`over_budget_products` list yields a raise-budget suggestion to the
minimum resolved price among those products, and every
`insufficient_specs` entry yields a lower-need suggestion to the maximum
spec value for that attribute among its recorded products. -/
theorem claim_C8 (cfg : Config) (user_needs : AttrMap) (user_budget : ℚ)
    (products : List Product) :
    ((analyze_no_match_reason cfg user_needs user_budget
          products).over_budget_products ≠ [] →
      Suggestion.raise_budget
          (list_min
            ((analyze_no_match_reason cfg user_needs user_budget
                products).over_budget_products.map resolve_price)) ∈
        (analyze_no_match_reason cfg user_needs user_budget products).suggestions) ∧
    (∀ kl ∈ (analyze_no_match_reason cfg user_needs user_budget
        products).insufficient_specs,
      Suggestion.lower_need kl.1
          (list_max (kl.2.map fun prod => (List.lookup kl.1 prod.specs).getD 0)) ∈
        (analyze_no_match_reason cfg user_needs user_budget products).suggestions) := by
  constructor
  · intro hne
    exact raise_mem_suggestions _ hne
  · intro kl hkl
    exact lower_mem_suggestions _ hkl

/-- Witness for C8 at the two-product no-match scenario. -/
theorem claim_C8_witness :
    Suggestion.raise_budget
        (list_min
          ((analyze_no_match_reason default_config [("data", 30)] 50
              [pOver, pLow]).over_budget_products.map resolve_price)) ∈
      (analyze_no_match_reason default_config [("data", 30)] 50
        [pOver, pLow]).suggestions ∧
    Suggestion.lower_need "data"
        (list_max ([pLow].map fun prod => (List.lookup "data" prod.specs).getD 0)) ∈
      (analyze_no_match_reason default_config [("data", 30)] 50
        [pOver, pLow]).suggestions :=
  ⟨(claim_C8 default_config [("data", 30)] 50 [pOver, pLow]).1
      (by rw [analyze_OL]; simp),
   (claim_C8 default_config [("data", 30)] 50 [pOver, pLow]).2 ("data", [pLow])
      (by rw [analyze_OL]; simp)⟩

/-- C9: on an empty product list `analyze_no_match_reason` — a total
function, so it cannot raise — returns the Diagnosis whose
`over_budget_products`, `insufficient_specs` and `suggestions` are all
empty. -/
theorem claim_C9 (cfg : Config) (user_needs : AttrMap) (user_budget : ℚ) :
    analyze_no_match_reason cfg user_needs user_budget [] = ⟨[], [], []⟩ := rfl

/-- C10: `resolve_price` — the price fallback used identically by
`evaluate_single_product` (hence `recommend`), `generate_match_reason` and
`analyze_product_mismatch` / `_generate_improvement_suggestions` (hence
`analyze_no_match_reason`) — takes the price entry of the specs when present,
else the top-level price entry, else 0; a product with no price anywhere
resolves to 0 and passes the budget part of the eligibility check for
every nonnegative budget and tolerance. -/
theorem claim_C10 (cfg : Config) (p : Product) (user_budget : ℚ) :
    (∀ v, List.lookup "price" p.specs = some v → resolve_price p = v) ∧
    (List.lookup "price" p.specs = none →
      (∀ v, p.price = some v → resolve_price p = v) ∧
      (p.price = none →
        resolve_price p = 0 ∧
        (0 ≤ user_budget → 0 ≤ cfg.budget_tolerance →
          check_basic_requirements cfg [] p.specs user_budget (resolve_price p)
            = true))) := by
  constructor
  · intro v hv
    rw [resolve_price.eq_def, hv]
  · intro hn
    constructor
    · intro v hv
      rw [resolve_price.eq_def, hn, hv]
      rfl
    · intro hpn
      have h0 : resolve_price p = 0 := by
        rw [resolve_price.eq_def, hn, hpn]
        rfl
      refine ⟨h0, fun hb ht => ?_⟩
      rw [h0, check_basic_requirements, if_neg (not_lt.2 (mul_nonneg hb ht))]
      rfl

/-- Witness for C10 on the three concrete products. -/
theorem claim_C10_witness :
    resolve_price pS = 42 ∧ resolve_price pT = 7 ∧ resolve_price pN = 0 ∧
    check_basic_requirements default_config [] pN.specs 100 (resolve_price pN)
      = true :=
  ⟨(claim_C10 default_config pS 100).1 42 (by decide),
   ((claim_C10 default_config pT 100).2 (by decide)).1 7 rfl,
   (((claim_C10 default_config pN 100).2 (by decide)).2 rfl).1,
   (((claim_C10 default_config pN 100).2 (by decide)).2 rfl).2 (by norm_num)
     (by norm_num [default_config])⟩

end GRec5
